import Mathlib

/-!
Shallow embedding of the RTIC application in src/main.rs (rp2040-w5500):
the interrupt demultiplexer irq_bank0, the periodic timeout_tracker, the
dhcp_task (lease renewal) and the secop_task (echo service).  Each task is
modelled as a pure function from its inputs (register reads, pending-task
flags, clock value, negotiator result, received bytes) to its resulting
shared state and a trace of the observable events it performs, in program
order.
-/

namespace RpW5500

/-- W5500 hardware socket numbers (w5500-ll Sn, eight hardware sockets). -/
inductive Sn
  | Sn0 | Sn1 | Sn2 | Sn3 | Sn4 | Sn5 | Sn6 | Sn7
  deriving DecidableEq

/-- Socket index of an Sn. -/
def Sn.index : Sn → Nat
  | .Sn0 => 0
  | .Sn1 => 1
  | .Sn2 => 2
  | .Sn3 => 3
  | .Sn4 => 4
  | .Sn5 => 5
  | .Sn6 => 6
  | .Sn7 => 7

/-- Sn::bitmask - the bit of this socket in the SIR interrupt register. -/
def Sn.bitmask (s : Sn) : Nat := 2 ^ s.index

/-- const DHCP_SN: Sn = Sn::Sn0 - socket used by the DHCP client. -/
def DHCP_SN : Sn := .Sn0

/-- const SECOP_SN: Sn = Sn::Sn1 - socket used by the SECoP echo service. -/
def SECOP_SN : Sn := .Sn1

/-- const SECOP_PORT: u16 = 10767. -/
def SECOP_PORT : Nat := 10767

/-- u32::MAX, the largest value representable in a u32. -/
def U32_MAX : Nat := 2 ^ 32 - 1

/-- Checked u32 addition, as in the Rust expression now + spawn_after_secs:
overflow is a program error (panic under debug assertions), modelled as
none; the sum neither saturates nor is wrapped by design. -/
def u32_add (a b : Nat) : Option Nat :=
  if a + b ≤ U32_MAX then some (a + b) else none

/-- fn monotonic_secs: the Systick monotonic count (10 Hz granularity),
truncated to whole seconds by to_secs and narrowed from u64 to u32 with
try_into().unwrap(); none models the unwrap panic once the elapsed seconds
exceed u32::MAX. -/
def monotonic_secs (ticks : Nat) : Option Nat :=
  let secs := ticks / 10
  if secs ≤ U32_MAX then some secs else none

/-- Shared resources of the RTIC app (the #[shared] struct fields). -/
inductive Resource
  | w5500
  | dhcp
  | dhcpSpawnAt
  deriving DecidableEq

/-- The software tasks of the app. -/
inductive AppTask
  | dhcp_task
  | secop_task
  | timeout_tracker
  deriving DecidableEq

/-- Log levels of the defmt log statements used by the app. -/
inductive LogLevel
  | debug | info | warn | error
  deriving DecidableEq

/-- Observable events of a task run, in program order. -/
inductive Event
  | lockAcquire (rs : List Resource)
  | lockRelease (rs : List Resource)
  | readSir (value : Nat)
  | clearIrqPin
  | spawn (t : AppTask) (accepted : Bool)
  | spawnAfterSecs (t : AppTask) (secs : Nat)
  | readClock (now : Nat)
  | tcpRead (sn : Sn) (count : Nat)
  | tcpWrite (sn : Sn) (data : List Nat)
  | log (lvl : LogLevel) (msg : String)
  deriving DecidableEq

/-- An RTIC spawn attempt followed by an error log when it is rejected:
spawn succeeds exactly when no instance of the task is already pending. -/
def spawnAttempt (t : AppTask) (pending : Bool) (errMsg : String) : List Event :=
  Event.spawn t (!pending) ::
    (if pending then [Event.log .error errMsg] else [])

/-- Body of fn irq_bank0 executed under the w5500 lock: read the SIR
register, clear the edge interrupt on the irq pin, return early on a zero
(spurious) status, otherwise dispatch spawn requests by socket bitmask. -/
def irqBody (sir : Nat) (dhcpPending secopPending : Bool) : List Event :=
  Event.readSir sir ::
  Event.clearIrqPin ::
  (if sir = 0 then
    [Event.log .warn "W5500 spurious interrupt"]
  else
    (if sir &&& DHCP_SN.bitmask ≠ 0 then
      spawnAttempt .dhcp_task dhcpPending "DHCP task already spawned"
    else []) ++
    (if sir &&& SECOP_SN.bitmask ≠ 0 then
      spawnAttempt .secop_task secopPending "SECOP task already spawned"
    else []))

/-- fn irq_bank0: the W5500 interrupt handler.  Inputs: the value the SIR
register read returns, and whether an instance of dhcp_task or secop_task
is already pending (which makes the corresponding spawn fail). -/
def irq_bank0 (sir : Nat) (dhcpPending secopPending : Bool) : List Event :=
  Event.log .debug "W5500 got interrupt" ::
  Event.lockAcquire [.w5500] ::
  (irqBody sir dhcpPending secopPending ++ [Event.lockRelease [.w5500]])

/-- fn timeout_tracker: re-arms itself one second later, reads the clock,
then under the dhcp_spawn_at lock spawns dhcp_task when the deadline has
passed (clearing the deadline), and finally spawns secop_task discarding
the result.  Returns the new dhcp_spawn_at value and the event trace. -/
def timeout_tracker (now : Nat) (dhcp_spawn_at : Option Nat)
    (dhcpPending secopPending : Bool) : Option Nat × List Event :=
  let inner : Option Nat × List Event :=
    match dhcp_spawn_at with
    | some t =>
      if t ≤ now then
        (none, spawnAttempt .dhcp_task dhcpPending "DHCP task already spawned")
      else
        (some t, [])
    | none => (none, [])
  (inner.1,
    Event.spawnAfterSecs .timeout_tracker 1 ::
    Event.readClock now ::
    Event.lockAcquire [.dhcpSpawnAt] ::
    (inner.2 ++
      (Event.lockRelease [.dhcpSpawnAt] ::
       [Event.spawn .secop_task (!secopPending)])))

/-- Hardware state of the W5500 as far as this app configures it: one
abstract configuration word per socket of interest. -/
structure W5500State where
  dhcpCfg : Nat
  secopCfg : Nat
  deriving DecidableEq

/-- Error type of the lease negotiator (w5500-dhcp Error), abstract. -/
abbrev DhcpError := Nat

/-- Type of the external lease negotiator call dhcp.process(w5500, now):
returns the seconds until the next required call or an error, and may
update hardware socket state. -/
abbrev ProcessFn := W5500State → Nat → Except DhcpError Nat × W5500State

/-- Whether a negotiator result is a failure. -/
def isErrResult : Except DhcpError Nat → Bool
  | .ok _ => false
  | .error _ => true

/-- The retry interval the dhcp_task computes from the negotiator result:
the returned seconds on success, the fixed fallback of 5 on failure. -/
def dhcpInterval : Except DhcpError Nat → Nat
  | .ok sec => sec
  | .error _ => 5

/-- The error-log events of the dhcp_task failure path. -/
def dhcpErrEvents : Except DhcpError Nat → List Event
  | .ok _ => []
  | .error _ => [Event.log .error "DHCP error"]

/-- fn dhcp_task: under the joint w5500/dhcp/dhcp_spawn_at lock, read the
clock once, call the negotiator, compute the interval (fallback 5 on a
logged error), and set dhcp_spawn_at to now + interval, overwriting the
previous value (which the task never reads).  none models the panic of the
u32 addition overflowing. -/
def dhcp_task (process : ProcessFn) (hw : W5500State) (now : Nat)
    (_dhcp_spawn_at : Option Nat) :
    Option (W5500State × Option Nat × List Event) :=
  let r := process hw now
  let spawn_after_secs := dhcpInterval r.1
  match u32_add now spawn_after_secs with
  | none => none
  | some spawn_at =>
    some (r.2, some spawn_at,
      Event.lockAcquire [.w5500, .dhcp, .dhcpSpawnAt] ::
      Event.readClock now ::
      (dhcpErrEvents r.1 ++
        [Event.log .info "DHCP spawning after",
         Event.lockRelease [.w5500, .dhcp, .dhcpSpawnAt]]))

/-- fn secop_task: under the w5500 lock, read up to 256 bytes from the
service socket into a zeroed 256-byte buffer and, when the count is
nonzero, log and write exactly the received prefix back.  rx is the byte
sequence the hardware delivers (tcp_read returns rx.length). -/
def secop_task (rx : List Nat) : List Event :=
  let buf : List Nat := rx ++ List.replicate (256 - rx.length) 0
  let rx_bytes : Nat := rx.length
  Event.lockAcquire [.w5500] ::
  Event.tcpRead SECOP_SN rx_bytes ::
  ((if 0 < rx_bytes then
      [Event.log .info "got bytes from secop",
       Event.tcpWrite SECOP_SN (buf.take rx_bytes)]
    else []) ++
   [Event.lockRelease [.w5500]])

/-- Repeated dhcp_task runs (run k at time times k), starting from
hardware state hw and no deadline; returns the hardware state and the
deadline after n runs, none if any run panicked. -/
def dhcpRuns (process : ProcessFn) (times : Nat → Nat) (hw : W5500State) :
    Nat → Option (W5500State × Option Nat)
  | 0 => some (hw, none)
  | n + 1 =>
    match dhcpRuns process times hw n with
    | none => none
    | some (h, d) =>
      match dhcp_task process h (times n) d with
      | none => none
      | some (h2, d2, _) => some (h2, d2)

/-- The deadline value in force after n dhcp_task runs at times k. -/
def lastDeadline (times : Nat → Nat) : Nat → Option Nat
  | 0 => none
  | n + 1 => some (times n + 5)

/-- Event predicate: a spawn request of task t (accepted or rejected). -/
def isSpawnOf (t : AppTask) : Event → Bool
  | .spawn u _ => decide (u = t)
  | _ => false

/-- Number of spawn requests of task t in a trace. -/
def spawnCount (t : AppTask) (tr : List Event) : Nat :=
  tr.countP (isSpawnOf t)

/-- Event predicate: a rejected spawn request of task t. -/
def isRejectedSpawnOf (t : AppTask) : Event → Bool
  | .spawn u ok => decide (u = t) && !ok
  | _ => false

/-- Number of rejected spawn requests of task t in a trace. -/
def rejectedCount (t : AppTask) (tr : List Event) : Nat :=
  tr.countP (isRejectedSpawnOf t)

/-- Event predicate: an error-level log. -/
def isErrorLog : Event → Bool
  | .log .error _ => true
  | _ => false

/-- Number of error-level log events in a trace. -/
def errorLogCount (tr : List Event) : Nat :=
  tr.countP isErrorLog

/-- Event predicate: a clock read. -/
def isReadClock : Event → Bool
  | .readClock _ => true
  | _ => false

/-- Number of monotonic clock reads in a trace. -/
def readClockCount (tr : List Event) : Nat :=
  tr.countP isReadClock

/-- Whether a lock set contains the w5500 resource. -/
def hasW5500 : List Resource → Bool
  | [] => false
  | r :: rs => decide (r = Resource.w5500) || hasW5500 rs

/-- Event predicate: an acquisition of a lock set containing w5500. -/
def isW5500Acquire : Event → Bool
  | .lockAcquire rs => hasW5500 rs
  | _ => false

/-- Number of w5500 lock acquisitions in a trace. -/
def w5500AcquireCount (tr : List Event) : Nat :=
  tr.countP isW5500Acquire

/-- Scan of a trace checking that every hardware access (SIR read, irq-pin
clear) and every spawn request happens while the w5500 lock is held; d is
the current w5500 lock depth. -/
def w5500Locked (d : Nat) : List Event → Bool
  | [] => true
  | .lockAcquire rs :: tr =>
    w5500Locked (if hasW5500 rs then d + 1 else d) tr
  | .lockRelease rs :: tr =>
    w5500Locked (if hasW5500 rs then d - 1 else d) tr
  | .readSir _ :: tr => decide (0 < d) && w5500Locked d tr
  | .clearIrqPin :: tr => decide (0 < d) && w5500Locked d tr
  | .spawn _ _ :: tr => decide (0 < d) && w5500Locked d tr
  | _ :: tr => w5500Locked d tr

/-- The tcp writes performed in a trace, as socket and data pairs. -/
def writesOf : List Event → List (Sn × List Nat)
  | [] => []
  | .tcpWrite sn data :: tr => (sn, data) :: writesOf tr
  | _ :: tr => writesOf tr

/-- Projection: the dhcp_spawn_at value a dhcp_task run left behind. -/
def dhcpResultDeadline (r : Option (W5500State × Option Nat × List Event)) :
    Option (Option Nat) :=
  r.map fun x => x.2.1

/-- Projection: the hardware state a dhcp_task run left behind. -/
def dhcpResultHw (r : Option (W5500State × Option Nat × List Event)) :
    Option W5500State :=
  r.map fun x => x.1

/-- Projection: the trace of a dhcp_task run. -/
def dhcpResultTrace (r : Option (W5500State × Option Nat × List Event)) :
    Option (List Event) :=
  r.map fun x => x.2.2

/-- Projection: the secop socket configuration after repeated runs. -/
def runsSecopCfg (r : Option (W5500State × Option Nat)) : Option Nat :=
  r.map fun x => x.1.secopCfg

/-- Projection: the deadline after repeated runs. -/
def runsDeadline (r : Option (W5500State × Option Nat)) : Option (Option Nat) :=
  r.map fun x => x.2

/-- A lease negotiator that always fails and leaves the hardware state
untouched, for concrete instantiations. -/
def failProc : ProcessFn := fun hw _ => (Except.error 0, hw)

/-- A concrete initial hardware state. -/
def hw0 : W5500State := ⟨0, 0⟩

/-- C1: a timeout_tracker tick with a set deadline that has passed issues
exactly one dhcp_task spawn request and clears the deadline regardless of
whether the spawn succeeded; ticks with now before the deadline or with no
deadline set issue no dhcp_task spawn and leave the deadline as it was. -/
theorem C1_tracker_fires_once (now : Nat) (dsa : Option Nat)
    (dhcpPending secopPending : Bool) :
    spawnCount .dhcp_task (timeout_tracker now dsa dhcpPending secopPending).2 =
      (match dsa with
       | some t => if t ≤ now then 1 else 0
       | none => 0) ∧
    (timeout_tracker now dsa dhcpPending secopPending).1 =
      (match dsa with
       | some t => if t ≤ now then none else some t
       | none => none) := by
  cases dsa with
  | none =>
    simp [timeout_tracker, spawnCount, isSpawnOf, spawnAttempt]
  | some t =>
    by_cases h : t ≤ now <;>
      cases dhcpPending <;>
        simp [timeout_tracker, spawnCount, isSpawnOf, spawnAttempt, h]

/-- C2: an irq_bank0 invocation in which the SIR register reads zero
requests neither a dhcp_task spawn nor a secop_task spawn. -/
theorem C2_zero_sir_no_spawn (dhcpPending secopPending : Bool) :
    spawnCount .dhcp_task (irq_bank0 0 dhcpPending secopPending) = 0 ∧
    spawnCount .secop_task (irq_bank0 0 dhcpPending secopPending) = 0 := by
  cases dhcpPending <;> cases secopPending <;> decide

/-- C3 counterexample: on a zero SIR read the handler still clears the
edge interrupt, so the clear is not performed only in the non-zero case. -/
theorem C3_counterexample :
    Event.clearIrqPin ∈ irq_bank0 0 false false := by decide

/-- C3 amended: the edge-interrupt clear is unconditional: on every
invocation it happens right after the SIR read and before the zero check
and the bit decoding; in the zero case the handler then only logs a
warning and returns. -/
theorem C3_clear_unconditional (sir : Nat) (dhcpPending secopPending : Bool) :
    (irq_bank0 sir dhcpPending secopPending).take 4 =
      [Event.log .debug "W5500 got interrupt",
       Event.lockAcquire [.w5500],
       Event.readSir sir,
       Event.clearIrqPin] ∧
    irq_bank0 0 dhcpPending secopPending =
      [Event.log .debug "W5500 got interrupt",
       Event.lockAcquire [.w5500],
       Event.readSir 0,
       Event.clearIrqPin,
       Event.log .warn "W5500 spurious interrupt",
       Event.lockRelease [.w5500]] :=
  ⟨rfl, rfl⟩

/-- C6 counterexample: a timeout_tracker tick whose secop_task spawn is
rejected (one already pending) produces a rejected spawn request but no
error log: the rejection is silently discarded. -/
theorem C6_counterexample :
    rejectedCount .secop_task (timeout_tracker 0 none false true).2 = 1 ∧
    errorLogCount (timeout_tracker 0 none false true).2 = 0 := by decide

/-- C6 amended: every rejected spawn in irq_bank0 (for either task) and
every rejected dhcp_task spawn in timeout_tracker is logged as an error;
the timeout_tracker secop_task spawn is best-effort and its rejection is
discarded without a log. -/
theorem C6_rejections_logged (sir : Nat) (p q : Bool) (now : Nat)
    (dsa : Option Nat) (p2 q2 : Bool) :
    errorLogCount (irq_bank0 sir p q) =
      rejectedCount .dhcp_task (irq_bank0 sir p q) +
        rejectedCount .secop_task (irq_bank0 sir p q) ∧
    errorLogCount (timeout_tracker now dsa p2 q2).2 =
      rejectedCount .dhcp_task (timeout_tracker now dsa p2 q2).2 := by
  constructor
  · by_cases h0 : sir = 0 <;>
    by_cases h1 : sir &&& DHCP_SN.bitmask ≠ 0 <;>
    by_cases h2 : sir &&& SECOP_SN.bitmask ≠ 0 <;>
    cases p <;> cases q <;>
      simp [irq_bank0, irqBody, spawnAttempt, errorLogCount, rejectedCount,
            isErrorLog, isRejectedSpawnOf, h0, h1, h2]
  · cases dsa with
    | none =>
      simp [timeout_tracker, errorLogCount, rejectedCount, isErrorLog,
            isRejectedSpawnOf, spawnAttempt]
    | some t =>
      by_cases h : t ≤ now <;>
        cases p2 <;> cases q2 <;>
          simp [timeout_tracker, errorLogCount, rejectedCount, isErrorLog,
                isRejectedSpawnOf, spawnAttempt, h]

/-- C7: the first event of every timeout_tracker invocation is the re-arm
of the tracker for one second later, before the clock read, the deadline
check and the secop_task spawn. -/
theorem C7_rearm_first (now : Nat) (dsa : Option Nat) (p q : Bool) :
    ((timeout_tracker now dsa p q).2).head? =
      some (Event.spawnAfterSecs .timeout_tracker 1) := rfl

/-- C9: the whole irq_bank0 body - SIR read, edge clear and both spawn
requests - runs inside a single critical section on the w5500 lock, which
is acquired once and released as the very last action. -/
theorem C9_irq_single_critical_section (sir : Nat) (p q : Bool) :
    w5500Locked 0 (irq_bank0 sir p q) = true ∧
    w5500AcquireCount (irq_bank0 sir p q) = 1 ∧
    (irq_bank0 sir p q).getLast? = some (Event.lockRelease [.w5500]) := by
  by_cases h0 : sir = 0 <;>
  by_cases h1 : sir &&& DHCP_SN.bitmask ≠ 0 <;>
  by_cases h2 : sir &&& SECOP_SN.bitmask ≠ 0 <;>
  cases p <;> cases q <;>
    simp [irq_bank0, irqBody, spawnAttempt, w5500Locked, w5500AcquireCount,
          isW5500Acquire, hasW5500, h0, h1, h2]

/-- Helper: a dhcp_task run whose negotiator call fails sets the deadline
to now + 5 and produces the failure-path trace, provided the addition does
not overflow. -/
theorem dhcp_task_fail (process : ProcessFn) (hw : W5500State) (now : Nat)
    (old : Option Nat) (hfail : isErrResult (process hw now).1 = true)
    (hb : now + 5 ≤ U32_MAX) :
    dhcp_task process hw now old =
      some ((process hw now).2, some (now + 5),
        [Event.lockAcquire [.w5500, .dhcp, .dhcpSpawnAt],
         Event.readClock now,
         Event.log .error "DHCP error",
         Event.log .info "DHCP spawning after",
         Event.lockRelease [.w5500, .dhcp, .dhcpSpawnAt]]) := by
  rcases hre : process hw now with ⟨res, hw2⟩
  rw [hre] at hfail
  cases res with
  | ok sec => simp [isErrResult] at hfail
  | error e =>
    simp [dhcp_task, hre, dhcpInterval, dhcpErrEvents, u32_add, hb]

/-- Helper: iterated dhcp_task runs with an always-failing negotiator that
leaves the secop socket configuration alone: after each run the deadline
is the run time plus 5, and the secop configuration is the initial one. -/
theorem dhcpRuns_fail (process : ProcessFn) (times : Nat → Nat)
    (hw : W5500State)
    (hfail : ∀ h t, isErrResult (process h t).1 = true)
    (hframe : ∀ h t, ((process h t).2).secopCfg = h.secopCfg) :
    ∀ n, (∀ k, k < n → times k + 5 ≤ U32_MAX) →
      ∃ hn, dhcpRuns process times hw n = some (hn, lastDeadline times n) ∧
        hn.secopCfg = hw.secopCfg := by
  intro n
  induction n with
  | zero => exact fun _ => ⟨hw, rfl, rfl⟩
  | succ m ih =>
    intro hb
    obtain ⟨hn, hrun, hcfg⟩ := ih fun k hk => hb k (Nat.lt_succ_of_lt hk)
    have hstep := dhcp_task_fail process hn (times m) (lastDeadline times m)
      (hfail hn (times m)) (hb m (Nat.lt_succ_self m))
    refine ⟨(process hn (times m)).2, ?_, ?_⟩
    · have hld : lastDeadline times (m + 1) = some (times m + 5) := rfl
      rw [hld]
      simp [dhcpRuns, hrun, hstep]
    · rw [hframe]; exact hcfg

/-- C4: every dhcp_task run ends with the deadline set to now + interval,
the interval being the negotiator's returned seconds on success and the
fixed fallback 5 on failure; the failure is logged as exactly one error,
the clock is read exactly once inside the critical section, and the
previous deadline value is overwritten whatever it was. -/
theorem C4_deadline_always_set (process : ProcessFn) (hw : W5500State)
    (now : Nat) (old : Option Nat)
    (h : now + dhcpInterval (process hw now).1 ≤ U32_MAX) :
    dhcpResultDeadline (dhcp_task process hw now old) =
      some (some (now + dhcpInterval (process hw now).1)) ∧
    dhcpResultHw (dhcp_task process hw now old) = some (process hw now).2 ∧
    (dhcpResultTrace (dhcp_task process hw now old)).map errorLogCount =
      some (if isErrResult (process hw now).1 then 1 else 0) ∧
    (dhcpResultTrace (dhcp_task process hw now old)).map readClockCount =
      some 1 := by
  rcases hre : process hw now with ⟨res, hw2⟩
  rw [hre] at h
  cases res with
  | ok sec =>
    simp [dhcpInterval] at h
    simp [dhcp_task, hre, u32_add, h, dhcpInterval, dhcpErrEvents,
          isErrResult, dhcpResultDeadline, dhcpResultHw, dhcpResultTrace,
          errorLogCount, readClockCount, isErrorLog, isReadClock]
  | error e =>
    simp [dhcpInterval] at h
    simp [dhcp_task, hre, u32_add, h, dhcpInterval, dhcpErrEvents,
          isErrResult, dhcpResultDeadline, dhcpResultHw, dhcpResultTrace,
          errorLogCount, readClockCount, isErrorLog, isReadClock]

/-- C4 witness: a failing negotiator at time 7 leaves deadline 12 = 7 + 5,
an unchanged hardware state, one error log and one clock read. -/
theorem C4_witness :
    dhcpResultDeadline (dhcp_task failProc hw0 7 none) = some (some 12) ∧
    dhcpResultHw (dhcp_task failProc hw0 7 none) = some hw0 ∧
    (dhcpResultTrace (dhcp_task failProc hw0 7 none)).map errorLogCount =
      some 1 ∧
    (dhcpResultTrace (dhcp_task failProc hw0 7 none)).map readClockCount =
      some 1 := by
  simpa using C4_deadline_always_set failProc hw0 7 none (by decide)

/-- C5: the bytes a secop_task run writes are exactly the received prefix,
unchanged, on the same service socket, and nothing is written when the
read count is zero. -/
theorem C5_echo_roundtrip (rx : List Nat) (h : rx.length ≤ 256) :
    writesOf (secop_task rx) =
      if rx.length = 0 then [] else [(SECOP_SN, rx)] := by
  rcases rx with _ | ⟨b, bs⟩
  · simp [secop_task, writesOf]
  · have htake : ((b :: bs) ++ List.replicate (256 - (b :: bs).length) 0).take
        (b :: bs).length = b :: bs := List.take_left _ _
    simp [secop_task, writesOf, htake]

/-- C5 witness: three received bytes are echoed back verbatim. -/
theorem C5_witness :
    writesOf (secop_task [1, 2, 3]) = [(SECOP_SN, [1, 2, 3])] := by
  simpa using C5_echo_roundtrip [1, 2, 3] (by decide)

/-- C8: with a negotiator that fails on every call and does not touch the
service socket configuration, repeated dhcp_task runs reschedule at a
fixed 5-second interval indefinitely (the deadline after each run is its
run time plus 5) and leave the service socket configuration exactly as it
started. -/
theorem C8_fail_reschedule_frame (process : ProcessFn) (times : Nat → Nat)
    (hw : W5500State) (n : Nat)
    (hfail : ∀ h t, isErrResult (process h t).1 = true)
    (hframe : ∀ h t, ((process h t).2).secopCfg = h.secopCfg)
    (hb : ∀ k, k < n → times k + 5 ≤ U32_MAX) :
    runsDeadline (dhcpRuns process times hw n) = some (lastDeadline times n) ∧
    runsSecopCfg (dhcpRuns process times hw n) = some hw.secopCfg := by
  obtain ⟨hn, hrun, hcfg⟩ := dhcpRuns_fail process times hw hfail hframe n hb
  simp [runsDeadline, runsSecopCfg, hrun, hcfg]

/-- C8 witness: three runs of an always-failing negotiator at times 0, 5,
10 end with deadline 15 and the initial secop configuration. -/
theorem C8_witness :
    runsDeadline (dhcpRuns failProc (fun k => 5 * k) hw0 3) =
      some (some 15) ∧
    runsSecopCfg (dhcpRuns failProc (fun k => 5 * k) hw0 3) = some 0 := by
  simpa using C8_fail_reschedule_frame failProc (fun k => 5 * k) hw0 3
    (fun _ _ => rfl) (fun _ _ => rfl) (by decide)

/-- C10: monotonic_secs panics (none) exactly when the elapsed whole
seconds exceed u32::MAX; the u32 deadline addition panics exactly on sums
beyond u32::MAX and otherwise returns the exact sum (no saturation, no
wrap), and an overflowing addition makes the dhcp_task run panic. -/
theorem C10_u32_narrowing :
    (∀ ticks, monotonic_secs ticks = none ↔ U32_MAX < ticks / 10) ∧
    (∀ a b, u32_add a b = none ↔ U32_MAX < a + b) ∧
    (∀ a b v, u32_add a b = some v → v = a + b) ∧
    (∀ (process : ProcessFn) (hw : W5500State) (now : Nat)
       (old : Option Nat),
      u32_add now (dhcpInterval (process hw now).1) = none →
      dhcp_task process hw now old = none) := by
  refine ⟨?_, ?_, ?_, ?_⟩
  · intro ticks
    by_cases hc : ticks / 10 ≤ U32_MAX <;> simp [monotonic_secs, hc]
    all_goals omega
  · intro a b
    by_cases hc : a + b ≤ U32_MAX <;> simp [u32_add, hc]
    all_goals omega
  · intro a b v hv
    by_cases hc : a + b ≤ U32_MAX <;> simp [u32_add, hc] at hv
    omega
  · intro process hw now old hov
    simp [dhcp_task, hov]

/-- C10 witness: the clock read halts once 2 to the 32 seconds elapsed,
and the deadline addition halts at the same bound. -/
theorem C10_witness :
    monotonic_secs (10 * 2 ^ 32) = none ∧ u32_add (2 ^ 32) 0 = none :=
  ⟨(C10_u32_narrowing.1 (10 * 2 ^ 32)).mpr (by decide),
   (C10_u32_narrowing.2.1 (2 ^ 32) 0).mpr (by decide)⟩

end RpW5500
